import Mathlib

set_option maxRecDepth 8000

/-!
Verification of the deeo-ai ETL / deduplication pipeline.

This file shallowly embeds the pipeline code of the repository
(`backend/app/pipelines/deduplication.py`, `arxiv_pipeline.py`,
`arxiv_mappers.py`, `arxiv_collector.py`, the pydantic validators of
`backend/app/schemas/publication.py`, and
`backend/app/enrichment/enrichment_service.py` / `semantic_scholar.py`)
into Lean and proves, or refutes, the specified properties.

Conventions of the embedding:
* Python strings are `List Char` (`Str`); Python `str.lower` is modelled on
  the ASCII range, `str.strip` strips the usual whitespace characters.
* A Python value that may be `None` (or an absent dict key, when the code
  only ever reads it with `.get`) is an `Option`.
* Python truthiness of an optional string (`if s:`) is `truthy`.
* Python floats are modelled as rationals `ℚ`.
* Code that can raise returns `Except PyErr _`.
-/

/-- Python strings, modelled as lists of characters. -/
abbrev Str := List Char

/-- Python truthiness of an optional string: `None` and `""` are falsy,
every other string is truthy. -/
def truthy : Option Str → Bool
  | none => false
  | some s => !s.isEmpty

/-- Python `str.lower`, modelled on the ASCII range (all strings the claims
touch are ASCII). -/
def pyLower (s : Str) : Str := s.map Char.toLower

/-- Python `str.strip()` with no argument: remove leading and trailing
whitespace. -/
def pyStrip (s : Str) : Str :=
  ((s.dropWhile Char.isWhitespace).reverse.dropWhile Char.isWhitespace).reverse

/-- Exceptions of the embedded Python code. -/
inductive PyErr
  | multipleResultsFound
  | attributeError (msg : String)
  | typeError (msg : String)
  | indexError
  | arxivAPIError (msg : String)
  deriving DecidableEq, Repr

/-- The `publication` ORM row (`backend/app/models/publication.py`).
`id` is an opaque key; `nombre_citations`, `nombre_auteurs` are integer
columns; nullable string columns are `Option Str`. -/
structure Publication where
  id : Nat
  titre : Option Str
  abstract : Option Str
  doi : Option Str
  arxiv_id : Option Str
  url : Option Str
  date_publication : Option Str
  type_publication : Option Str
  status : Option Str
  language : Option Str
  source_nom : Option Str
  evenement_id : Option Nat
  nombre_citations : Int
  nombre_auteurs : Int
  deriving DecidableEq, Repr

/-- The `publication_data` dict handed to the deduplication service
(produced by `ArxivToPublicationMapper.map`).  Reads go through `.get`,
so every field is optional. -/
structure PubData where
  titre : Option Str
  abstract : Option Str
  doi : Option Str
  arxiv_id : Option Str
  url : Option Str
  date_publication : Option Str
  type_publication : Option Str
  source_nom : Option Str
  status : Option Str
  nombre_citations : Option Int
  score_pertinence : Option ℚ
  deriving DecidableEq, Repr

/-! ### difflib.SequenceMatcher

`DeduplicationService._calculate_similarity` calls
`SequenceMatcher(None, t1, t2).ratio()`.  The embedding below reproduces
the stdlib algorithm for inputs shorter than 200 characters (below the
autojunk threshold, which is the regime of publication titles): the
longest matching block of a window is found by the dynamic programme on
common suffix lengths, scanning `i` then `j` in ascending order and
keeping the first block of maximal size, and `ratio` is twice the total
matched length over the total length. -/

/-- Length of the common suffix of `a[alo..i]` and `b[blo..j]` ending
exactly at positions `i`/`j` (the value `j2len[j]` of row `i` in
`difflib.SequenceMatcher.find_longest_match`).  The fuel argument is a
structural bound on the walk back towards `alo`; `kmatch` supplies
`i + 1`, which always suffices. -/
def kmatchAux (a b : Str) (alo blo : Nat) : Nat → Nat → Nat → Nat
  | 0, _, _ => 0
  | fuel + 1, i, j =>
    match a[i]?, b[j]? with
    | some x, some y =>
      if x = y then
        if alo < i && blo < j then kmatchAux a b alo blo fuel (i - 1) (j - 1) + 1 else 1
      else 0
    | _, _ => 0

/-- Common-suffix length at `(i, j)` within the window starting at
`(alo, blo)`. -/
def kmatch (a b : Str) (alo blo i j : Nat) : Nat :=
  kmatchAux a b alo blo (i + 1) i j

/-- `difflib.SequenceMatcher.find_longest_match` on the window
`a[alo:ahi]`, `b[blo:bhi]` (no junk): returns `(i, j, size)` of the first
maximal matching block in scan order. -/
def find_longest_match (a b : Str) (alo ahi blo bhi : Nat) : Nat × Nat × Nat :=
  let pairs := (List.range' alo (ahi - alo)).flatMap
    (fun i => (List.range' blo (bhi - blo)).map (fun j => (i, j)))
  pairs.foldl
    (fun best ij =>
      let k := kmatch a b alo blo ij.1 ij.2
      if best.2.2 < k then (ij.1 + 1 - k, ij.2 + 1 - k, k) else best)
    (alo, blo, 0)

/-- Total size of the matching blocks of `get_matching_blocks`, computed by
the recursive window split; the fuel argument dominates the recursion
depth (each sub-window is strictly smaller). -/
def matchesAux (a b : Str) : Nat → Nat → Nat → Nat → Nat → Nat
  | 0, _, _, _, _ => 0
  | fuel + 1, alo, ahi, blo, bhi =>
    let r := find_longest_match a b alo ahi blo bhi
    if r.2.2 = 0 then 0
    else
      matchesAux a b fuel alo r.1 blo r.2.1 + r.2.2 +
        matchesAux a b fuel (r.1 + r.2.2) ahi (r.2.1 + r.2.2) bhi

/-- Total number of matched characters between `a` and `b`. -/
def sm_matches (a b : Str) : Nat :=
  matchesAux a b (a.length + b.length + 1) 0 a.length 0 b.length

/-- `SequenceMatcher.ratio()`: `2 * M / T`, and 1.0 when both strings are
empty (stdlib `_calculate_ratio`). -/
def sm_ratio (a b : Str) : ℚ :=
  if a.length + b.length = 0 then 1
  else (2 * sm_matches a b : ℚ) / (a.length + b.length)

/-- `DeduplicationService._calculate_similarity`: ratio of the lower-cased,
stripped texts. -/
def calculate_similarity (text1 text2 : Str) : ℚ :=
  sm_ratio (pyStrip (pyLower text1)) (pyStrip (pyLower text2))

/-! ### DeduplicationService (`backend/app/pipelines/deduplication.py`) -/

/-- SQLAlchemy `Result.scalar_one_or_none` over the rows matching a query:
none, the row, or `MultipleResultsFound`. -/
def scalar_one_or_none {α : Type} (rows : List α) : Except PyErr (Option α) :=
  match rows with
  | [] => .ok none
  | [p] => .ok (some p)
  | _ => .error .multipleResultsFound

/-- `DeduplicationService._find_by_doi`: exact `doi` equality (a SQL `=`
comparison, never satisfied by a NULL column). -/
def find_by_doi (db : List Publication) (doi : Str) : Except PyErr (Option Publication) :=
  scalar_one_or_none (db.filter (fun p => p.doi = some doi))

/-- `DeduplicationService._find_by_arxiv_id`: exact `arxiv_id` equality. -/
def find_by_arxiv_id (db : List Publication) (arxiv_id : Str) : Except PyErr (Option Publication) :=
  scalar_one_or_none (db.filter (fun p => p.arxiv_id = some arxiv_id))

/-- One iteration of the best-match loop of
`DeduplicationService._find_by_title_similarity`: publications with a
falsy title are ignored, the best match advances only on a strict
similarity improvement. -/
def titleStep (titre : Str) (acc : Option Publication × ℚ) (pub : Publication) :
    Option Publication × ℚ :=
  if truthy pub.titre then
    let s := calculate_similarity titre (pub.titre.getD [])
    if acc.2 < s then (some pub, s) else acc
  else acc

/-- `DeduplicationService._find_by_title_similarity`: scan every
publication, keep the best similarity, return it iff the best score
reaches the threshold. -/
def find_by_title_similarity (threshold : ℚ) (db : List Publication) (titre : Str) :
    Option Publication :=
  let best := db.foldl (titleStep titre) (none, 0)
  if threshold ≤ best.2 then best.1 else none

/-- Strategy 3 of `DeduplicationService.find_duplicate`: the title
similarity scan, attempted only when the candidate's `titre` is truthy. -/
def find_duplicate_tier3 (threshold : ℚ) (db : List Publication) (pd : PubData) :
    Option Publication :=
  if truthy pd.titre then find_by_title_similarity threshold db (pd.titre.getD [])
  else none

/-- Strategies 2–3 of `DeduplicationService.find_duplicate`: the arXiv-id
lookup when the candidate's `arxiv_id` is truthy, falling through to the
title scan on a miss. -/
def find_duplicate_tier23 (threshold : ℚ) (db : List Publication) (pd : PubData) :
    Except PyErr (Option Publication) :=
  if truthy pd.arxiv_id then
    match find_by_arxiv_id db (pd.arxiv_id.getD []) with
    | .error e => .error e
    | .ok (some dup) => .ok (some dup)
    | .ok none => .ok (find_duplicate_tier3 threshold db pd)
  else .ok (find_duplicate_tier3 threshold db pd)

/-- `DeduplicationService.find_duplicate`: tier 1 DOI, tier 2 arXiv id,
tier 3 title similarity; each tier is attempted only when its candidate
field is truthy and no earlier tier hit. -/
def find_duplicate (threshold : ℚ) (db : List Publication) (pd : PubData) :
    Except PyErr (Option Publication) :=
  if truthy pd.doi then
    match find_by_doi db (pd.doi.getD []) with
    | .error e => .error e
    | .ok (some dup) => .ok (some dup)
    | .ok none => find_duplicate_tier23 threshold db pd
  else find_duplicate_tier23 threshold db pd

/-- `DeduplicationService.should_update`: update iff the candidate has
strictly more citations, or fills a falsy abstract / doi / arxiv_id.
(`existing.nombre_citations or 0` is the identity on an integer column,
since `0 or 0 == 0`.) -/
def should_update (existing : Publication) (new_data : PubData) : Bool :=
  (new_data.nombre_citations.getD 0 > existing.nombre_citations) ||
  (truthy new_data.abstract && !truthy existing.abstract) ||
  (truthy new_data.doi && !truthy existing.doi) ||
  (truthy new_data.arxiv_id && !truthy existing.arxiv_id)

/-- `DeduplicationService.merge_publications`: fill each of abstract, doi,
arxiv_id, url when the existing value is falsy and the candidate's is
truthy; raise the citation count when the candidate's is strictly
higher.  (The guarded assignment reads `new_data['nombre_citations']`,
equal to `.get(..., 0)` whenever the guard can fire on a non-negative
stored count.) -/
def merge_publications (existing : Publication) (new_data : PubData) : Publication :=
  let e1 := if !truthy existing.abstract && truthy new_data.abstract then
      { existing with abstract := new_data.abstract } else existing
  let e2 := if !truthy e1.doi && truthy new_data.doi then
      { e1 with doi := new_data.doi } else e1
  let e3 := if !truthy e2.arxiv_id && truthy new_data.arxiv_id then
      { e2 with arxiv_id := new_data.arxiv_id } else e2
  let e4 := if !truthy e3.url && truthy new_data.url then
      { e3 with url := new_data.url } else e3
  if new_data.nombre_citations.getD 0 > e4.nombre_citations then
    { e4 with nombre_citations := new_data.nombre_citations.getD 0 }
  else e4

/-! ### Claim C1: dedup tier precedence -/

/-- Case analysis of one step of the best-match loop. -/
lemma titleStep_trichotomy (t : Str) (acc : Option Publication × ℚ) (q : Publication) :
    (truthy q.titre = false ∧ titleStep t acc q = acc) ∨
    (truthy q.titre = true ∧ calculate_similarity t (q.titre.getD []) ≤ acc.2 ∧
      titleStep t acc q = acc) ∨
    (truthy q.titre = true ∧ acc.2 < calculate_similarity t (q.titre.getD []) ∧
      titleStep t acc q = (some q, calculate_similarity t (q.titre.getD []))) := by
  by_cases h : truthy q.titre = true
  · by_cases h2 : acc.2 < calculate_similarity t (q.titre.getD [])
    · exact Or.inr (Or.inr ⟨h, h2, by simp [titleStep, h, h2]⟩)
    · exact Or.inr (Or.inl ⟨h, not_lt.mp h2, by simp [titleStep, h, h2]⟩)
  · exact Or.inl ⟨Bool.not_eq_true _ ▸ Bool.of_not_eq_true h, by simp [titleStep, h]⟩

/-- Invariant of the best-match fold of `_find_by_title_similarity`: the
best score never decreases, dominates the similarity of every scanned
truthy-titled publication, and the final accumulator is either untouched
or holds a scanned publication together with its exact similarity. -/
lemma titleScan_spec (t : Str) (db : List Publication) (acc : Option Publication × ℚ) :
    acc.2 ≤ (db.foldl (titleStep t) acc).2 ∧
    (∀ q ∈ db, truthy q.titre = true →
      calculate_similarity t (q.titre.getD []) ≤ (db.foldl (titleStep t) acc).2) ∧
    ((db.foldl (titleStep t) acc) = acc ∨
      ∃ p ∈ db, truthy p.titre = true ∧
        (db.foldl (titleStep t) acc).1 = some p ∧
        (db.foldl (titleStep t) acc).2 = calculate_similarity t (p.titre.getD [])) := by
  induction db generalizing acc with
  | nil => simp
  | cons q rest ih =>
    obtain ⟨ih1, ih2, ih3⟩ := ih (titleStep t acc q)
    have hfold : (q :: rest).foldl (titleStep t) acc = rest.foldl (titleStep t) (titleStep t acc q) :=
      List.foldl_cons _ _
    have hstep : acc.2 ≤ (titleStep t acc q).2 := by
      rcases titleStep_trichotomy t acc q with ⟨_, he⟩ | ⟨_, _, he⟩ | ⟨_, hlt, he⟩
      · rw [he]
      · rw [he]
      · rw [he]; exact le_of_lt hlt
    have hsimq : truthy q.titre = true →
        calculate_similarity t (q.titre.getD []) ≤ (titleStep t acc q).2 := by
      intro hq
      rcases titleStep_trichotomy t acc q with ⟨hf, _⟩ | ⟨_, hle, he⟩ | ⟨_, _, he⟩
      · rw [hf] at hq; exact absurd hq (by simp)
      · rw [he]; exact hle
      · rw [he]
    refine ⟨?_, ?_, ?_⟩
    · rw [hfold]; exact le_trans hstep ih1
    · intro q1 hq1 ht1
      rw [hfold]
      rcases List.mem_cons.mp hq1 with rfl | hmem
      · exact le_trans (hsimq ht1) ih1
      · exact ih2 q1 hmem ht1
    · rw [hfold]
      rcases ih3 with heq | ⟨p, hp, htp, h1, h2⟩
      · rcases titleStep_trichotomy t acc q with ⟨_, he⟩ | ⟨_, _, he⟩ | ⟨htq, _, he⟩
        · exact Or.inl (heq.trans he)
        · exact Or.inl (heq.trans he)
        · refine Or.inr ⟨q, List.mem_cons_self _ _, htq, ?_, ?_⟩
          · rw [heq, he]
          · rw [heq, he]
      · exact Or.inr ⟨p, List.mem_cons_of_mem _ hp, htp, h1, h2⟩

/-- If the title scan returns a publication, it is a stored publication
with a truthy title whose similarity reaches the threshold and dominates
every other stored similarity. -/
lemma find_by_title_similarity_some (θ : ℚ) (db : List Publication) (t : Str)
    (p : Publication) (h : find_by_title_similarity θ db t = some p) :
    p ∈ db ∧ truthy p.titre = true ∧ θ ≤ calculate_similarity t (p.titre.getD []) ∧
    ∀ q ∈ db, truthy q.titre = true →
      calculate_similarity t (q.titre.getD []) ≤ calculate_similarity t (p.titre.getD []) := by
  obtain ⟨h1, h2, h3⟩ := titleScan_spec t db (none, 0)
  unfold find_by_title_similarity at h
  by_cases hc : θ ≤ (db.foldl (titleStep t) (none, 0)).2
  · rw [if_pos hc] at h
    rcases h3 with heq | ⟨p', hp', htp', hfst, hsnd⟩
    · rw [heq] at h; exact absurd h (by simp)
    · rw [hfst] at h
      obtain rfl : p' = p := Option.some_injective _ h
      refine ⟨hp', htp', hsnd ▸ hc, ?_⟩
      intro q hq htq
      rw [← hsnd]; exact h2 q hq htq
  · rw [if_neg hc] at h
    exact absurd h (by simp)

/-- The title scan returns nothing exactly when no stored truthy-titled
publication reaches the threshold (for a positive threshold: the scan
starts from score `0` and only strict improvements are recorded). -/
lemma find_by_title_similarity_none (θ : ℚ) (hθ : 0 < θ) (db : List Publication) (t : Str) :
    find_by_title_similarity θ db t = none ↔
      ∀ q ∈ db, truthy q.titre = true → calculate_similarity t (q.titre.getD []) < θ := by
  obtain ⟨h1, h2, h3⟩ := titleScan_spec t db (none, 0)
  have hgoal : find_by_title_similarity θ db t =
      (if θ ≤ (db.foldl (titleStep t) (none, 0)).2
        then (db.foldl (titleStep t) (none, 0)).1 else none) := rfl
  rw [hgoal]
  constructor
  · intro h q hq htq
    by_cases hc : θ ≤ (db.foldl (titleStep t) (none, 0)).2
    · rw [if_pos hc] at h
      rcases h3 with heq | ⟨p', _, _, hfst, _⟩
      · rw [heq] at hc
        exact absurd (hθ.trans_le hc) (lt_irrefl 0)
      · rw [hfst] at h; exact absurd h (by simp)
    · exact lt_of_le_of_lt (h2 q hq htq) (not_le.mp hc)
  · intro hall
    rcases h3 with heq | ⟨p', hp', htp', hfst, hsnd⟩
    · rw [heq]
      split <;> rfl
    · have hlt : (db.foldl (titleStep t) (none, 0)).2 < θ := hsnd ▸ hall p' hp' htp'
      rw [if_neg (not_le.mpr hlt)]

/-- C1: `find_duplicate` evaluates the dedup tiers in strict precedence
with first hit winning.  (i) If the candidate carries a (truthy) DOI and
exactly one stored publication has that DOI (the `publication.doi` column
is unique), that publication is returned, whatever the candidate's
arXiv id and title — tiers 2 and 3 cannot influence the result.  (ii) If
tier 1 and tier 2 miss, the result is exactly the tier-3 title scan.
(iii) A tier-3 hit is a stored publication with maximal
case-insensitive trimmed similarity, which reaches the threshold.
(iv) Tier 3 returns nothing iff no stored publication reaches the
threshold. -/
theorem find_duplicate_tier_precedence (θ : ℚ) (db : List Publication) (pd : PubData)
    (hθ : 0 < θ) :
    (∀ d pub, pd.doi = some d → d ≠ [] →
        db.filter (fun p => p.doi = some d) = [pub] →
        find_duplicate θ db pd = .ok (some pub)) ∧
    ((truthy pd.doi = false ∨ db.filter (fun p => p.doi = some (pd.doi.getD [])) = []) →
      (truthy pd.arxiv_id = false ∨
        db.filter (fun p => p.arxiv_id = some (pd.arxiv_id.getD [])) = []) →
      find_duplicate θ db pd = .ok (find_duplicate_tier3 θ db pd)) ∧
    (∀ t p, find_by_title_similarity θ db t = some p →
        p ∈ db ∧ truthy p.titre = true ∧ θ ≤ calculate_similarity t (p.titre.getD []) ∧
        ∀ q ∈ db, truthy q.titre = true →
          calculate_similarity t (q.titre.getD []) ≤ calculate_similarity t (p.titre.getD [])) ∧
    (∀ t, find_by_title_similarity θ db t = none ↔
        ∀ q ∈ db, truthy q.titre = true → calculate_similarity t (q.titre.getD []) < θ) := by
  refine ⟨?_, ?_, fun t p h => find_by_title_similarity_some θ db t p h,
    fun t => find_by_title_similarity_none θ hθ db t⟩
  · intro d pub hdoi hne hfilter
    have ht : truthy pd.doi = true := by
      rw [hdoi]
      cases d with
      | nil => exact absurd rfl hne
      | cons a l => rfl
    have hgd : pd.doi.getD [] = d := by rw [hdoi]; rfl
    have hfd : find_by_doi db d = .ok (some pub) := by
      unfold find_by_doi; rw [hfilter]; rfl
    unfold find_duplicate
    rw [ht, hgd, hfd]
    simp
  · intro h1 h2
    have h23 : find_duplicate_tier23 θ db pd = .ok (find_duplicate_tier3 θ db pd) := by
      rcases h2 with h2 | h2
      · unfold find_duplicate_tier23; rw [h2]; simp
      · by_cases hb : truthy pd.arxiv_id = true
        · have hfa : find_by_arxiv_id db (pd.arxiv_id.getD []) = .ok none := by
            unfold find_by_arxiv_id; rw [h2]; rfl
          unfold find_duplicate_tier23
          rw [hb, hfa]
          simp
        · unfold find_duplicate_tier23
          rw [Bool.not_eq_true] at hb
          rw [hb]
          simp
    rcases h1 with h1 | h1
    · unfold find_duplicate; rw [h1]; simpa using h23
    · by_cases hb : truthy pd.doi = true
      · have hfd : find_by_doi db (pd.doi.getD []) = .ok none := by
          unfold find_by_doi; rw [h1]; rfl
        unfold find_duplicate
        rw [hb, hfd]
        simpa using h23
      · unfold find_duplicate
        rw [Bool.not_eq_true] at hb
        rw [hb]
        simpa using h23

/-- Witness fixture: a stored publication carrying the candidate's DOI but
an unrelated title. -/
def c1P1 : Publication :=
  { id := 1, titre := some "A survey of graph colouring".data, abstract := none,
    doi := some "10.48550/arXiv.2311.00001".data, arxiv_id := some "2311.00001".data,
    url := none, date_publication := none, type_publication := none, status := none,
    language := none, source_nom := none, evenement_id := none,
    nombre_citations := 0, nombre_auteurs := 0 }

/-- Witness fixture: a different stored publication whose title is
near-identical (case-insensitively equal) to the candidate's. -/
def c1P2 : Publication :=
  { id := 2, titre := some "deep nets".data, abstract := none,
    doi := some "10.1000/other".data, arxiv_id := none,
    url := none, date_publication := none, type_publication := none, status := none,
    language := none, source_nom := none, evenement_id := none,
    nombre_citations := 0, nombre_auteurs := 0 }

/-- Witness fixture: a candidate with both a matching DOI (of `c1P1`) and a
near-identical title (to `c1P2`). -/
def c1Cand : PubData :=
  { titre := some "Deep Nets".data, abstract := none,
    doi := some "10.48550/arXiv.2311.00001".data, arxiv_id := some "2311.00001".data,
    url := none, date_publication := none, type_publication := none,
    source_nom := none, status := none, nombre_citations := some 0,
    score_pertinence := none }

/-- Witness for C1 at the default threshold 0.95: the candidate's title is
similarity-1 to `c1P2`, yet the DOI match `c1P1` wins. -/
theorem find_duplicate_tier_precedence_witness :
    (0 : ℚ) < 95/100 ∧
    calculate_similarity (c1Cand.titre.getD []) (c1P2.titre.getD []) = 1 ∧
    c1P1 ≠ c1P2 ∧
    find_duplicate (95/100) [c1P1, c1P2] c1Cand = .ok (some c1P1) := by
  refine ⟨by norm_num, ?_, by decide, ?_⟩
  · show calculate_similarity "Deep Nets".data "deep nets".data = 1
    have h : sm_matches (pyStrip (pyLower "Deep Nets".data))
        (pyStrip (pyLower "deep nets".data)) = 9 := by decide
    have hl : (pyStrip (pyLower "Deep Nets".data)).length = 9 := by decide
    have hr : (pyStrip (pyLower "deep nets".data)).length = 9 := by decide
    rw [calculate_similarity, sm_ratio, h, hl, hr]
    norm_num
  · exact (find_duplicate_tier_precedence (95/100) [c1P1, c1P2] c1Cand (by norm_num)).1
      "10.48550/arXiv.2311.00001".data c1P1 rfl (by decide) (by decide)

/-! ### Claims C2 and C3: merge and should_update -/

/-- Field equation for the abstract after a merge. -/
lemma merge_abstract_eq (e : Publication) (c : PubData) :
    (merge_publications e c).abstract =
      (if !truthy e.abstract && truthy c.abstract then c.abstract else e.abstract) := by
  simp only [merge_publications]
  split_ifs <;> simp_all

/-- Field equation for the DOI after a merge. -/
lemma merge_doi_eq (e : Publication) (c : PubData) :
    (merge_publications e c).doi =
      (if !truthy e.doi && truthy c.doi then c.doi else e.doi) := by
  simp only [merge_publications]
  split_ifs <;> simp_all

/-- Field equation for the arXiv id after a merge. -/
lemma merge_arxiv_eq (e : Publication) (c : PubData) :
    (merge_publications e c).arxiv_id =
      (if !truthy e.arxiv_id && truthy c.arxiv_id then c.arxiv_id else e.arxiv_id) := by
  simp only [merge_publications]
  split_ifs <;> simp_all

/-- Field equation for the URL after a merge. -/
lemma merge_url_eq (e : Publication) (c : PubData) :
    (merge_publications e c).url =
      (if !truthy e.url && truthy c.url then c.url else e.url) := by
  simp only [merge_publications]
  split_ifs <;> simp_all

/-- Field equation for the citation count after a merge. -/
lemma merge_citations_eq (e : Publication) (c : PubData) :
    (merge_publications e c).nombre_citations =
      max e.nombre_citations (c.nombre_citations.getD 0) := by
  simp only [merge_publications]
  split_ifs <;> simp_all <;> omega

/-- Counterexample fixture for C2: an existing record whose abstract is the
empty string — non-null, yet falsy for the merge guard. -/
def c2E : Publication :=
  { id := 7, titre := some "Old title".data, abstract := some "".data,
    doi := some "10.1/x".data, arxiv_id := some "2311.00002".data,
    url := none, date_publication := none, type_publication := none, status := none,
    language := none, source_nom := none, evenement_id := none,
    nombre_citations := 3, nombre_auteurs := 2 }

/-- Counterexample fixture for C2: a candidate carrying an abstract. -/
def c2C : PubData :=
  { titre := some "Old title".data, abstract := some "New abstract".data,
    doi := some "10.1/x".data, arxiv_id := some "2311.00002".data,
    url := some "https://arxiv.org/abs/2311.00002".data, date_publication := none,
    type_publication := none, source_nom := none, status := none,
    nombre_citations := some 1, score_pertinence := none }

/-- Counterexample to C2 as stated: `c2E.abstract` is non-null (the empty
string), yet `merge_publications` overwrites it, because the code guards
the copy with Python truthiness (`not existing.abstract`), not with a
null test. -/
theorem merge_publications_claim_counterexample :
    c2E.abstract = some "".data ∧ c2E.abstract ≠ none ∧
    (merge_publications c2E c2C).abstract = some "New abstract".data ∧
    (merge_publications c2E c2C).abstract ≠ c2E.abstract := by decide

/-- C2 (amended): a merge overwrites abstract / doi / arxiv_id / url only
when the existing value is falsy (null or empty) and the candidate's is
truthy — in particular non-empty values are never overwritten; the
citation count after a merge is the maximum of the existing count and
the candidate's (0 when absent); every other field is untouched. -/
theorem merge_publications_amended (e : Publication) (c : PubData) :
    (truthy e.abstract = true → (merge_publications e c).abstract = e.abstract) ∧
    (truthy e.doi = true → (merge_publications e c).doi = e.doi) ∧
    (truthy e.arxiv_id = true → (merge_publications e c).arxiv_id = e.arxiv_id) ∧
    (truthy e.url = true → (merge_publications e c).url = e.url) ∧
    (merge_publications e c).abstract =
      (if !truthy e.abstract && truthy c.abstract then c.abstract else e.abstract) ∧
    (merge_publications e c).doi =
      (if !truthy e.doi && truthy c.doi then c.doi else e.doi) ∧
    (merge_publications e c).arxiv_id =
      (if !truthy e.arxiv_id && truthy c.arxiv_id then c.arxiv_id else e.arxiv_id) ∧
    (merge_publications e c).url =
      (if !truthy e.url && truthy c.url then c.url else e.url) ∧
    (merge_publications e c).nombre_citations =
      max e.nombre_citations (c.nombre_citations.getD 0) ∧
    (merge_publications e c).id = e.id ∧
    (merge_publications e c).titre = e.titre ∧
    (merge_publications e c).date_publication = e.date_publication ∧
    (merge_publications e c).type_publication = e.type_publication ∧
    (merge_publications e c).status = e.status ∧
    (merge_publications e c).language = e.language ∧
    (merge_publications e c).source_nom = e.source_nom ∧
    (merge_publications e c).evenement_id = e.evenement_id ∧
    (merge_publications e c).nombre_auteurs = e.nombre_auteurs := by
  refine ⟨?_, ?_, ?_, ?_, merge_abstract_eq e c, merge_doi_eq e c, merge_arxiv_eq e c,
    merge_url_eq e c, merge_citations_eq e c, ?_⟩
  · intro h; rw [merge_abstract_eq]; simp [h]
  · intro h; rw [merge_doi_eq]; simp [h]
  · intro h; rw [merge_arxiv_eq]; simp [h]
  · intro h; rw [merge_url_eq]; simp [h]
  · simp only [merge_publications]
    split_ifs <;> simp_all

/-- Witness fixture for the amended C2: an existing record with non-empty
abstract, DOI and arXiv id. -/
def c2E2 : Publication :=
  { id := 8, titre := some "Kept title".data, abstract := some "Kept abstract".data,
    doi := some "10.1/kept".data, arxiv_id := some "2311.00003".data,
    url := some "https://kept".data, date_publication := none, type_publication := none,
    status := none, language := none, source_nom := none, evenement_id := none,
    nombre_citations := 10, nombre_auteurs := 1 }

/-- Witness for the amended C2 at a concrete existing record and
candidate: populated (truthy) fields survive and the citation count is
the maximum. -/
theorem merge_publications_amended_witness :
    truthy c2E2.abstract = true ∧
    (merge_publications c2E2 c2C).abstract = c2E2.abstract ∧
    (merge_publications c2E2 c2C).doi = c2E2.doi ∧
    (merge_publications c2E2 c2C).arxiv_id = c2E2.arxiv_id ∧
    (merge_publications c2E2 c2C).nombre_citations =
      max c2E2.nombre_citations (c2C.nombre_citations.getD 0) := by
  refine ⟨by decide, ?_, ?_, ?_, ?_⟩
  · exact (merge_publications_amended c2E2 c2C).1 (by decide)
  · exact (merge_publications_amended c2E2 c2C).2.1 (by decide)
  · exact (merge_publications_amended c2E2 c2C).2.2.1 (by decide)
  · exact (merge_publications_amended c2E2 c2C).2.2.2.2.2.2.2.2.1

/-- C3: `should_update` returns true iff the candidate has strictly more
citations, or fills a missing (falsy) abstract, DOI or arXiv id. -/
theorem should_update_iff (e : Publication) (c : PubData) :
    should_update e c = true ↔
      e.nombre_citations < c.nombre_citations.getD 0 ∨
      (truthy c.abstract = true ∧ truthy e.abstract = false) ∨
      (truthy c.doi = true ∧ truthy e.doi = false) ∨
      (truthy c.arxiv_id = true ∧ truthy e.arxiv_id = false) := by
  simp only [should_update, Bool.or_eq_true, Bool.and_eq_true, Bool.not_eq_true',
    decide_eq_true_eq, gt_iff_lt]
  tauto

/-! ### Claim C10: category mapping (`backend/app/pipelines/arxiv_mappers.py`) -/

/-- The entries of `ArxivCategoryMapper.CATEGORY_MAPPING` (keys are
distinct, so association-list lookup models the Python dict). -/
def CATEGORY_MAPPING_TABLE : List (Str × Str) :=
  [("cs.AI".data, "Artificial Intelligence".data),
   ("cs.LG".data, "Machine Learning".data),
   ("cs.CV".data, "Computer Vision".data),
   ("cs.CL".data, "Natural Language Processing".data),
   ("cs.NE".data, "Neural Networks".data),
   ("stat.ML".data, "Statistical Machine Learning".data),
   ("cs.RO".data, "Robotics".data),
   ("cs.IR".data, "Information Retrieval".data),
   ("cs.HC".data, "Human-Computer Interaction".data),
   ("cs.CR".data, "Cryptography and Security".data)]

/-- `ArxivCategoryMapper.CATEGORY_MAPPING.get(code)`: the fixed
category-code → theme-label lookup (`None` for unknown codes). -/
def CATEGORY_MAPPING (c : Str) : Option Str :=
  (CATEGORY_MAPPING_TABLE.find? (fun kv => kv.1 = c)).map (fun kv => kv.2)

/-- One iteration of the `map_categories` loop: append the mapped theme
when it is truthy and not already collected. -/
def catStep (themes : List Str) (category : Str) : List Str :=
  match CATEGORY_MAPPING category with
  | some theme =>
    if theme.isEmpty = false ∧ theme ∉ themes then themes ++ [theme] else themes
  | none => themes

/-- `ArxivCategoryMapper.map_categories`. -/
def map_categories (categories : List Str) : List Str :=
  categories.foldl catStep []

/-- First-seen deduplication, the specification-side description: keep
each element's first occurrence, delete the later ones. -/
def dedupFirst : List Str → List Str
  | [] => []
  | x :: xs => x :: dedupFirst (xs.filter (fun y => y ≠ x))
termination_by l => l.length
decreasing_by
  simp only [List.length_cons]
  exact Nat.lt_succ_of_le (List.length_filter_le _ _)

/-- Every label of the fixed table is non-empty. -/
lemma CATEGORY_MAPPING_ne_empty (c t : Str) (h : CATEGORY_MAPPING c = some t) :
    t.isEmpty = false := by
  unfold CATEGORY_MAPPING at h
  obtain ⟨kv, hfind, hsnd⟩ := Option.map_eq_some'.mp h
  have hmem : kv ∈ CATEGORY_MAPPING_TABLE := List.mem_of_find?_eq_some hfind
  have hall : ∀ kv ∈ CATEGORY_MAPPING_TABLE, (Prod.snd kv).isEmpty = false := by decide
  rw [← hsnd]
  exact hall kv hmem

/-- Since table labels are never empty, the truthiness guard of the loop
reduces to the membership test. -/
lemma catStep_eq (themes : List Str) (c : Str) :
    catStep themes c =
      match CATEGORY_MAPPING c with
      | some theme => if theme ∉ themes then themes ++ [theme] else themes
      | none => themes := by
  unfold catStep
  cases h : CATEGORY_MAPPING c with
  | none => rfl
  | some t =>
    have hne := CATEGORY_MAPPING_ne_empty c t h
    simp [hne]

/-- The `map_categories` accumulator loop, relative to an arbitrary
starting accumulator: it appends the first-seen deduplication of the
mapped labels not already collected. -/
lemma map_categories_go (cats : List Str) (acc : List Str) :
    cats.foldl catStep acc =
      acc ++ dedupFirst ((cats.filterMap CATEGORY_MAPPING).filter (fun x => x ∉ acc)) := by
  induction cats generalizing acc with
  | nil => simp [dedupFirst]
  | cons c rest ih =>
    rw [List.foldl_cons, List.filterMap_cons, catStep_eq]
    cases h : CATEGORY_MAPPING c with
    | none => exact ih acc
    | some t =>
      dsimp only
      by_cases hmem : t ∈ acc
      · rw [if_neg (by simpa using hmem), ih acc]
        have hfilter : (t :: rest.filterMap CATEGORY_MAPPING).filter (fun x => x ∉ acc) =
            (rest.filterMap CATEGORY_MAPPING).filter (fun x => x ∉ acc) := by
          rw [List.filter_cons]
          simp [hmem]
        rw [hfilter]
      · rw [if_pos hmem, ih (acc ++ [t])]
        have hfilter : (t :: rest.filterMap CATEGORY_MAPPING).filter (fun x => x ∉ acc) =
            t :: (rest.filterMap CATEGORY_MAPPING).filter (fun x => x ∉ acc) := by
          rw [List.filter_cons]
          simp [hmem]
        rw [hfilter, dedupFirst]
        have hff : (rest.filterMap CATEGORY_MAPPING).filter (fun x => x ∉ acc ++ [t]) =
            ((rest.filterMap CATEGORY_MAPPING).filter (fun x => x ∉ acc)).filter
              (fun y => y ≠ t) := by
          rw [List.filter_filter]
          apply List.filter_congr
          intro x _
          by_cases h1 : x ∈ acc <;> by_cases h2 : x = t <;>
            simp [h1, h2, List.mem_append]
        rw [hff]
        simp [List.append_assoc]

/-- Elements of the first-seen deduplication come from the original list. -/
lemma dedupFirst_subset : ∀ (l : List Str), ∀ x ∈ dedupFirst l, x ∈ l
  | [] => by simp [dedupFirst]
  | y :: ys => by
    rw [dedupFirst]
    intro x hx
    rcases List.mem_cons.mp hx with rfl | hx2
    · exact List.mem_cons_self _ _
    · exact List.mem_cons_of_mem _
        (List.mem_of_mem_filter (dedupFirst_subset (ys.filter (fun z => z ≠ y)) x hx2))
termination_by l => l.length
decreasing_by
  simp only [List.length_cons]
  exact Nat.lt_succ_of_le (List.length_filter_le _ _)

/-- The first-seen deduplication never contains a repeated label. -/
lemma dedupFirst_nodup : ∀ (l : List Str), (dedupFirst l).Nodup
  | [] => by simp [dedupFirst]
  | y :: ys => by
    rw [dedupFirst]
    refine List.nodup_cons.mpr ⟨?_, dedupFirst_nodup (ys.filter (fun z => z ≠ y))⟩
    intro hy
    have := List.of_mem_filter (dedupFirst_subset _ _ hy)
    simp at this
termination_by l => l.length
decreasing_by
  simp only [List.length_cons]
  exact Nat.lt_succ_of_le (List.length_filter_le _ _)

/-- Counterexample to C10 as stated: `stat.ML` maps to the label
"Statistical Machine Learning", a distinct label from
"Machine Learning", so the example input yields a two-element list, not
`["Machine Learning"]`. -/
theorem map_categories_claim_counterexample :
    map_categories ["cs.LG".data, "stat.ML".data, "cs.LG".data] =
      ["Machine Learning".data, "Statistical Machine Learning".data] ∧
    map_categories ["cs.LG".data, "stat.ML".data, "cs.LG".data] ≠
      ["Machine Learning".data] := by
  constructor
  · decide
  · decide

/-- C10 (amended): `map_categories` maps known codes through the fixed
table, silently drops unknown codes and deduplicates the labels keeping
first-seen order — the result is exactly the first-seen deduplication of
the mapped labels, with no duplicate labels; on the example input the
label "Machine Learning" appears exactly once (the duplicate `cs.LG` is
collapsed) but `stat.ML` contributes its own distinct label. -/
theorem map_categories_dedup_spec (cats : List Str) :
    map_categories cats = dedupFirst (cats.filterMap CATEGORY_MAPPING) ∧
    (map_categories cats).Nodup ∧
    map_categories ["cs.LG".data, "stat.ML".data, "cs.LG".data] =
      ["Machine Learning".data, "Statistical Machine Learning".data] ∧
    (map_categories ["cs.LG".data, "stat.ML".data, "cs.LG".data]).count
      "Machine Learning".data = 1 := by
  have heq : map_categories cats = dedupFirst (cats.filterMap CATEGORY_MAPPING) := by
    unfold map_categories
    rw [map_categories_go cats []]
    simp
  refine ⟨heq, ?_, by decide, by decide⟩
  rw [heq]
  exact dedupFirst_nodup _

/-! ### Claim C9: arXiv id normalization
(`backend/app/schemas/publication.py` and
`backend/app/enrichment/semantic_scholar.py`) -/

/-- Helper of `pyStartswith`, recursive on the pattern so that the
function reduces even when only the subject's prefix is concrete. -/
def pyStartswithAux : Str → Str → Bool
  | [], _ => true
  | _ :: _, [] => false
  | p :: ps, c :: s2 => c = p && pyStartswithAux ps s2

/-- Python `str.startswith`. -/
def pyStartswith (s pre : Str) : Bool := pyStartswithAux pre s

/-- Python `str.replace(old, new)`: replace every non-overlapping
occurrence, scanning left to right (fuel-structural; the caller passes
the string length, enough since each step consumes a character). -/
def pyReplaceAux (old new : Str) : Nat → Str → Str
  | 0, s => s
  | fuel + 1, s =>
    match s with
    | [] => []
    | c :: rest =>
      if pyStartswith (c :: rest) old && !old.isEmpty then
        new ++ pyReplaceAux old new fuel ((c :: rest).drop old.length)
      else c :: pyReplaceAux old new fuel rest

/-- Python `s.replace(old, new)` for non-empty `old`. -/
def pyReplace (s old new : Str) : Str := pyReplaceAux old new s.length s

/-- The pydantic validator `arxiv_id_format`
(`backend/app/schemas/publication.py`): strip whitespace, turn a blank
value into `None`, drop the prefix `arXiv:` — with exactly that
capitalisation — and nothing else (despite its name it validates no
digit format). -/
def arxiv_id_format (v : Option Str) : Option Str :=
  match v with
  | none => none
  | some s =>
    let s1 := pyStrip s
    if s1.isEmpty then none
    else if pyStartswith s1 "arXiv:".data then some (s1.drop 6)
    else some s1

/-- The id cleaning of `SemanticScholarClient.get_paper_by_arxiv_id`:
`arxiv_id.replace("arxiv:", "").strip()` — removes the lowercase
spelling only. -/
def clean_arxiv_id (s : Str) : Str :=
  pyStrip (pyReplace s "arxiv:".data [])

/-- `List.dropWhile` is the identity when no element satisfies the
predicate. -/
lemma dropWhile_eq_self_of (p : Char → Bool) (l : Str)
    (h : ∀ c ∈ l, p c = false) : l.dropWhile p = l := by
  cases l with
  | nil => rfl
  | cons c rest =>
    rw [List.dropWhile_cons, h c (List.mem_cons_self _ _)]
    simp

/-- `pyStrip` is the identity on whitespace-free strings. -/
lemma pyStrip_eq_self (l : Str) (h : ∀ c ∈ l, c.isWhitespace = false) :
    pyStrip l = l := by
  unfold pyStrip
  rw [dropWhile_eq_self_of _ _ h, dropWhile_eq_self_of, List.reverse_reverse]
  intro c hc
  exact h c (List.mem_reverse.mp hc)

/-- Counterexample to C9 as stated: the storage validator leaves the
lowercase `arxiv:` prefix in place, and the external-lookup cleaning
leaves the `arXiv:` spelling in place — neither site accepts both
spellings. -/
theorem arxiv_id_prefix_counterexample :
    arxiv_id_format (some "arxiv:2401.12345".data) = some "arxiv:2401.12345".data ∧
    some "arxiv:2401.12345".data ≠ (some "2401.12345".data : Option Str) ∧
    clean_arxiv_id "arXiv:2401.12345".data = "arXiv:2401.12345".data := by
  refine ⟨by decide, by decide, by decide⟩

/-- C9 (amended): each site strips exactly one spelling.  The storage
validator drops the exact prefix `arXiv:` (so "arXiv:2401.12345" is
stored as "2401.12345") and keeps every whitespace-free id that starts
with the lowercase `arxiv:` unchanged; the Semantic Scholar lookup
removes the lowercase `arxiv:` occurrences only. -/
theorem arxiv_id_normalization_amended (s : Str)
    (hws : ∀ c ∈ s, c.isWhitespace = false) :
    arxiv_id_format (some ("arXiv:".data ++ s)) = some s ∧
    arxiv_id_format (some ("arxiv:".data ++ s)) = some ("arxiv:".data ++ s) ∧
    arxiv_id_format (some "arXiv:2401.12345".data) = some "2401.12345".data ∧
    clean_arxiv_id "arxiv:2401.12345".data = "2401.12345".data := by
  have hU : ∀ c ∈ "arXiv:".data, c.isWhitespace = false := by decide
  have hL : ∀ c ∈ "arxiv:".data, c.isWhitespace = false := by decide
  have hwsU : ∀ c ∈ "arXiv:".data ++ s, c.isWhitespace = false := by
    intro c hc
    rcases List.mem_append.mp hc with hc | hc
    · exact hU c hc
    · exact hws c hc
  have hwsL : ∀ c ∈ "arxiv:".data ++ s, c.isWhitespace = false := by
    intro c hc
    rcases List.mem_append.mp hc with hc | hc
    · exact hL c hc
    · exact hws c hc
  refine ⟨?_, ?_, by decide, by decide⟩
  · show arxiv_id_format (some ("arXiv:".data ++ s)) = some s
    unfold arxiv_id_format
    dsimp only
    rw [pyStrip_eq_self _ hwsU]
    rfl
  · show arxiv_id_format (some ("arxiv:".data ++ s)) = some ("arxiv:".data ++ s)
    unfold arxiv_id_format
    dsimp only
    rw [pyStrip_eq_self _ hwsL]
    rfl

/-- Witness for the amended C9 at the concrete id "2401.12345". -/
theorem arxiv_id_normalization_amended_witness :
    (∀ c ∈ "2401.12345".data, c.isWhitespace = false) ∧
    arxiv_id_format (some ("arXiv:".data ++ "2401.12345".data)) = some "2401.12345".data ∧
    arxiv_id_format (some ("arxiv:".data ++ "2401.12345".data)) =
      some ("arxiv:".data ++ "2401.12345".data) := by
  refine ⟨by decide, ?_, ?_⟩
  · exact (arxiv_id_normalization_amended "2401.12345".data (by decide)).1
  · exact (arxiv_id_normalization_amended "2401.12345".data (by decide)).2.1

/-! ### The arXiv paper records and field mappers
(`backend/app/pipelines/arxiv_mappers.py`) -/

/-- A value read from a paper dict whose `None` case matters: the key may
be absent, hold Python `None`, or hold a string. -/
inductive PyStr
  | absent
  | pynone
  | str (s : Str)
  deriving DecidableEq, Repr

/-- One entry of a paper's `authors` list (a `{'name': ...}` dict);
`none` models an absent or falsy name, which `map_authors` filters out
before mapping. -/
structure ArxivAuthorRec where
  name : Option Str
  deriving DecidableEq, Repr

/-- A raw paper dict as produced by `ArxivCollector._parse_entry` (or
handed to the pipeline by a test): `title` and `summary` are `.strip()`ed
by the mapper, so a stored `None` raises there; the other fields are only
read through `.get` and truthiness. -/
structure ArxivPaper where
  id : Option Str
  title : PyStr
  summary : PyStr
  authors : List ArxivAuthorRec
  categories : List Str
  published : Option Str
  doi : Option Str
  deriving DecidableEq, Repr

/-- `arxiv_paper.get(key, '').strip()`: an absent key defaults to the
empty string, a stored `None` raises `AttributeError` (as in
`None.strip()`), a string is stripped. -/
def getStrip : PyStr → Except PyErr Str
  | .absent => .ok []
  | .pynone => .error (.attributeError "NoneType object has no attribute strip")
  | .str s => .ok (pyStrip s)

/-- Stand-in for `datetime.fromisoformat` (after the mapper's
`Z` → `+00:00` rewrite): accepts a string shaped `YYYY-MM-DD…` and keeps
it as the date value, fails (the mapper catches the `ValueError` and
stores a null date) otherwise.  No claim depends on date parsing. -/
def fromisoformat (s : Str) : Option Str :=
  match s with
  | y1 :: y2 :: y3 :: y4 :: '-' :: m1 :: m2 :: '-' :: d1 :: d2 :: _ =>
    if [y1, y2, y3, y4, m1, m2, d1, d2].all Char.isDigit then some s else none
  | _ => none

/-- `ArxivToPublicationMapper.map`: parse the date tolerantly, synthesize
the DOI `10.48550/arXiv.<id>` when none is supplied, strip title and
summary, and fill the fixed fields — including the `score_pertinence`
key, which is not a `Publication` column. -/
def map_publication (p : ArxivPaper) : Except PyErr PubData := do
  let date_publication : Option Str :=
    match p.published with
    | some s => if !s.isEmpty then fromisoformat (pyReplace s "Z".data "+00:00".data) else none
    | none => none
  let doi : Option Str :=
    if !truthy p.doi && truthy p.id then some ("10.48550/arXiv.".data ++ p.id.getD [])
    else p.doi
  let titre ← getStrip p.title
  let abstract ← getStrip p.summary
  .ok { titre := some titre, abstract := some abstract, arxiv_id := p.id, doi := doi,
        date_publication := date_publication,
        type_publication := some "preprint".data,
        source_nom := some "arXiv".data,
        status := some "pending_enrichment".data,
        url := if truthy p.id then some ("https://arxiv.org/abs/".data ++ p.id.getD [])
          else none,
        nombre_citations := some 0,
        score_pertinence := some 0 }

/-- Python `str.split()` with no argument: split on whitespace runs,
dropping empty parts (fuel-structural on the string length). -/
def pySplitAux : Nat → Str → List Str
  | 0, _ => []
  | fuel + 1, s =>
    let s1 := s.dropWhile Char.isWhitespace
    match s1 with
    | [] => []
    | _ :: _ =>
      s1.takeWhile (fun c => !c.isWhitespace) ::
        pySplitAux fuel (s1.dropWhile (fun c => !c.isWhitespace))

/-- Python `str.split()`. -/
def pySplit (s : Str) : List Str := pySplitAux s.length s

/-- `ArxivToAuteurMapper._parse_name`: `(given names, surname)` with the
last whitespace token as surname.  A non-empty all-whitespace input would
make `parts[-1]` raise `IndexError` in Python; the mapper strips its
input first, so that path needs a whitespace-only name. -/
def parse_name (full_name : Str) : Except PyErr (Str × Str) :=
  if full_name.isEmpty then .ok ([], [])
  else
    match pySplit full_name with
    | [] => .error .indexError
    | [p] => .ok ([], p)
    | parts => .ok (List.intercalate " ".data parts.dropLast, parts.getLastD [])

/-- The author dict built by `ArxivToAuteurMapper.map` (only the fields
the pipeline reads). -/
structure AuteurData where
  nom : Option Str
  prenom : Option Str
  deriving DecidableEq, Repr

/-- `ArxivToAuteurMapper.map`. -/
def map_auteur (author : ArxivAuthorRec) : Except PyErr AuteurData := do
  let name := pyStrip (author.name.getD [])
  let pn ← parse_name name
  .ok { nom := some pn.2, prenom := some pn.1 }

/-- `ArxivToAuteurMapper.map_authors`: map every author whose name is
truthy. -/
def map_authors (authors : List ArxivAuthorRec) : Except PyErr (List AuteurData) :=
  (authors.filter (fun a => truthy a.name)).mapM map_auteur

/-- `ArxivCategoryMapper.THEME_KEYWORDS`. -/
def THEME_KEYWORDS : List (Str × List Str) :=
  [("Artificial Intelligence".data,
    ["ai".data, "artificial intelligence".data, "intelligent systems".data]),
   ("Machine Learning".data,
    ["machine learning".data, "ml".data, "supervised".data, "unsupervised".data]),
   ("Computer Vision".data,
    ["vision".data, "image".data, "visual".data, "object detection".data]),
   ("Natural Language Processing".data,
    ["nlp".data, "language".data, "text".data, "linguistic".data]),
   ("Neural Networks".data,
    ["neural".data, "deep learning".data, "cnn".data, "rnn".data, "transformer".data]),
   ("Statistical Machine Learning".data,
    ["statistics".data, "probabilistic".data, "bayesian".data]),
   ("Robotics".data, ["robot".data, "robotics".data, "autonomous".data]),
   ("Information Retrieval".data, ["search".data, "retrieval".data, "ranking".data]),
   ("Human-Computer Interaction".data,
    ["hci".data, "interaction".data, "user interface".data]),
   ("Cryptography and Security".data,
    ["security".data, "cryptography".data, "privacy".data])]

/-- Python substring containment (`sub in s`). -/
def pyContains (s sub : Str) : Bool :=
  (List.range (s.length + 1)).any (fun i => pyStartswith (s.drop i) sub)

/-- `ArxivCategoryMapper.extract_themes_from_text`: every theme one of
whose keywords occurs in the lower-cased text, first-seen order. -/
def extract_themes_from_text (text : Str) : List Str :=
  let text_lower := pyLower text
  THEME_KEYWORDS.foldl
    (fun acc tk =>
      if tk.2.any (fun k => pyContains text_lower k) then
        (if tk.1 ∈ acc then acc else acc ++ [tk.1])
      else acc)
    []

/-! ### The ETL orchestrator (`backend/app/pipelines/arxiv_pipeline.py`) -/

/-- The `auteur` ORM row (only the fields the pipeline touches). -/
structure Auteur where
  id : Nat
  nom : Option Str
  prenom : Option Str
  deriving DecidableEq, Repr

/-- The `theme` ORM row (only the fields the pipeline touches). -/
structure Theme where
  id : Nat
  label : Str
  niveau_hierarchie : Int
  deriving DecidableEq, Repr

/-- An ordered publication–author association row. -/
structure PublicationAuteur where
  publication_id : Nat
  auteur_id : Nat
  ordre : Nat
  deriving DecidableEq, Repr

/-- An unordered publication–theme association row. -/
structure PublicationTheme where
  publication_id : Nat
  theme_id : Nat
  deriving DecidableEq, Repr

/-- The database state visible through the session (the embedding does not
distinguish flushed-pending from committed rows; the claims proved below
only touch paths where the distinction is unobservable).  `next_id`
models the id generator of the flush. -/
structure Db where
  publications : List Publication
  auteurs : List Auteur
  themes : List Theme
  publication_auteurs : List PublicationAuteur
  publication_themes : List PublicationTheme
  next_id : Nat
  deriving DecidableEq, Repr

/-- The pipeline's mutable state: the session plus `ArxivPipelineStats`. -/
structure PipeState where
  db : Db
  papers_collected : Nat
  papers_created : Nat
  papers_updated : Nat
  papers_skipped : Nat
  authors_created : Nat
  themes_created : Nat
  errors : Nat
  deriving DecidableEq, Repr

/-- The transformed record returned by `ArxivPipeline.transform`. -/
structure Transformed where
  publication : PubData
  authors : List AuteurData
  themes : List Str
  deriving DecidableEq, Repr

/-- `ArxivPipeline.transform`: map the publication, the authors (when
present) and the categories; fall back to keyword extraction over
title+abstract when no category mapped and the title is truthy. -/
def transform (p : ArxivPaper) : Except PyErr Transformed := do
  let publication ← map_publication p
  let authors ← map_authors p.authors
  let themes0 := map_categories p.categories
  let themes :=
    if themes0.isEmpty && truthy publication.titre then
      extract_themes_from_text (publication.titre.getD [] ++ " ".data ++
        publication.abstract.getD [])
    else themes0
  .ok { publication := publication, authors := authors, themes := themes }

/-- `Publication(**publication_data)`: the SQLAlchemy declarative
constructor raises `TypeError` on any keyword that is not a mapped
attribute — and the mapper always supplies `score_pertinence`, which is
not a `Publication` column (the model has `score_popularite`). -/
def publication_from_data (pub_id : Nat) (pd : PubData) : Except PyErr Publication :=
  if pd.score_pertinence.isSome then
    .error (.typeError "score_pertinence is an invalid keyword argument for Publication")
  else
    .ok { id := pub_id, titre := pd.titre, abstract := pd.abstract, doi := pd.doi,
          arxiv_id := pd.arxiv_id, url := pd.url, date_publication := pd.date_publication,
          type_publication := pd.type_publication, status := pd.status,
          language := some "en".data, source_nom := pd.source_nom, evenement_id := none,
          nombre_citations := pd.nombre_citations.getD 0, nombre_auteurs := 0 }

/-- `ArxivPipeline._find_or_create_author`: when the mapped surname is
truthy the code calls `self.auteur_repo.get_by_name(nom, prenom)` — a
method `AuteurRepository` does not define (it has `search_by_name`,
`get_by_orcid`, …) — so Python raises `AttributeError` before any lookup
or insert; only an author with a falsy surname is ever created. -/
def find_or_create_author (s : PipeState) (a : AuteurData) :
    PipeState × Except PyErr Auteur :=
  if truthy a.nom then
    (s, .error (.attributeError "AuteurRepository object has no attribute get_by_name"))
  else
    let auteur : Auteur := { id := s.db.next_id, nom := a.nom, prenom := a.prenom }
    ({ s with
        db := { s.db with auteurs := s.db.auteurs ++ [auteur], next_id := s.db.next_id + 1 },
        authors_created := s.authors_created + 1 },
      .ok auteur)

/-- `ArxivPipeline._handle_authors`: resolve each author and add the
ordered association (`ordre = idx + 1`); an exception surfaces with the
session state it had reached. -/
def handle_authors_go (pubId : Nat) : PipeState → Nat → List AuteurData →
    PipeState × Option PyErr
  | s, _, [] => (s, none)
  | s, idx, a :: rest =>
    match find_or_create_author s a with
    | (s1, .error e) => (s1, some e)
    | (s1, .ok auteur) =>
      let s2 := { s1 with
        db := { s1.db with publication_auteurs := s1.db.publication_auteurs ++
          [{ publication_id := pubId, auteur_id := auteur.id, ordre := idx + 1 }] } }
      handle_authors_go pubId s2 (idx + 1) rest

/-- `ArxivPipeline._handle_authors`. -/
def handle_authors (s : PipeState) (pubId : Nat) (authors : List AuteurData) :
    PipeState × Option PyErr :=
  handle_authors_go pubId s 0 authors

/-- `ThemeRepository.get_by_nom`: exact label equality. -/
def theme_get_by_nom (themes : List Theme) (nom : Str) : Except PyErr (Option Theme) :=
  scalar_one_or_none (themes.filter (fun t => t.label = nom))

/-- `ArxivPipeline._find_or_create_theme`. -/
def find_or_create_theme (s : PipeState) (name : Str) :
    PipeState × Except PyErr Theme :=
  match theme_get_by_nom s.db.themes name with
  | .error e => (s, .error e)
  | .ok (some t) => (s, .ok t)
  | .ok none =>
    let t : Theme := { id := s.db.next_id, label := name, niveau_hierarchie := 0 }
    ({ s with
        db := { s.db with themes := s.db.themes ++ [t], next_id := s.db.next_id + 1 },
        themes_created := s.themes_created + 1 },
      .ok t)

/-- `ArxivPipeline._handle_themes`. -/
def handle_themes (s : PipeState) (pubId : Nat) : List Str → PipeState × Option PyErr
  | [] => (s, none)
  | name :: rest =>
    match find_or_create_theme s name with
    | (s1, .error e) => (s1, some e)
    | (s1, .ok t) =>
      let s2 := { s1 with
        db := { s1.db with publication_themes := s1.db.publication_themes ++
          [{ publication_id := pubId, theme_id := t.id }] } }
      handle_themes s2 pubId rest

/-- `ArxivPipeline.load`: deduplicate, then merge / skip / create, then
authors and themes for non-skipped records; an exception surfaces with
the session state it had reached. -/
def load (θ : ℚ) (s : PipeState) (td : Transformed) :
    PipeState × Except PyErr (Option Publication) :=
  match find_duplicate θ s.db.publications td.publication with
  | .error e => (s, .error e)
  | .ok (some existing) =>
    if should_update existing td.publication then
      let merged := merge_publications existing td.publication
      let s1 := { s with
        db := { s.db with publications :=
          s.db.publications.map (fun q => if q.id = existing.id then merged else q) },
        papers_updated := s.papers_updated + 1 }
      match handle_authors s1 merged.id td.authors with
      | (s2, some e) => (s2, .error e)
      | (s2, none) =>
        match handle_themes s2 merged.id td.themes with
        | (s3, some e) => (s3, .error e)
        | (s3, none) => (s3, .ok (some merged))
    else
      ({ s with papers_skipped := s.papers_skipped + 1 }, .ok none)
  | .ok none =>
    match publication_from_data s.db.next_id td.publication with
    | .error e => (s, .error e)
    | .ok pub =>
      let s1 := { s with
        db := { s.db with
          publications := s.db.publications ++ [pub],
          next_id := s.db.next_id + 1 },
        papers_created := s.papers_created + 1 }
      match handle_authors s1 pub.id td.authors with
      | (s2, some e) => (s2, .error e)
      | (s2, none) =>
        match handle_themes s2 pub.id td.themes with
        | (s3, some e) => (s3, .error e)
        | (s3, none) => (s3, .ok (some pub))

/-- `ArxivPipeline._process_paper`: transform then load, catching every
exception and counting it in `errors`. -/
def process_paper (θ : ℚ) (s : PipeState) (p : ArxivPaper) : PipeState :=
  match transform p with
  | .error _ => { s with errors := s.errors + 1 }
  | .ok td =>
    match load θ s td with
    | (s1, .error _) => { s1 with errors := s1.errors + 1 }
    | (s1, .ok _) => s1

/-- The transform-and-load loop of `ArxivPipeline.run`. -/
def run_papers (θ : ℚ) (s : PipeState) (papers : List ArxivPaper) : PipeState :=
  papers.foldl (process_paper θ) s

/-- `ArxivPipeline.run` on an already-extracted batch: record the
collected count, then process every paper in order (the per-record
try/except in `_process_paper` means the loop itself never raises). -/
def run (θ : ℚ) (s : PipeState) (papers : List ArxivPaper) : PipeState :=
  run_papers θ { s with papers_collected := papers.length } papers

/-! ### Claims C4 and C5: error isolation and author resolution -/

/-- Fixture: an author-less paper whose synthesized DOI will hit tier 1. -/
def c4paper (n : Char) (t : Str) : ArxivPaper :=
  { id := some ("2311.0000".data ++ [n]), title := .str t, summary := .str "About it".data,
    authors := [], categories := ["cs.LG".data], published := none, doi := none }

/-- Fixture: a stored publication that makes `should_update` false for the
corresponding `c4paper` (every fillable field populated, more citations). -/
def c4existing (pid : Nat) (n : Char) (t : Str) : Publication :=
  { id := pid, titre := some t, abstract := some "Full abstract".data,
    doi := some ("10.48550/arXiv.2311.0000".data ++ [n]),
    arxiv_id := some ("2311.0000".data ++ [n]), url := none, date_publication := none,
    type_publication := some "preprint".data, status := some "published".data,
    language := none, source_nom := none, evenement_id := none,
    nombre_citations := 5, nombre_auteurs := 0 }

/-- Fixture: the paper whose mapping raises (`title` holds Python `None`,
so `.strip()` raises `AttributeError`). -/
def c4paper3 : ArxivPaper :=
  { id := some "2311.00003".data, title := .pynone, summary := .str "x".data,
    authors := [], categories := ["cs.LG".data], published := none, doi := none }

/-- Fixture: the database before the 5-record batch. -/
def c4db : Db :=
  { publications := [c4existing 1 '1' "Paper one".data, c4existing 2 '2' "Paper two".data,
      c4existing 4 '4' "Paper four".data, c4existing 5 '5' "Paper five".data],
    auteurs := [], themes := [], publication_auteurs := [], publication_themes := [],
    next_id := 10 }

/-- Fixture: the pipeline state before the 5-record batch. -/
def c4s0 : PipeState :=
  { db := c4db,
    papers_collected := 0, papers_created := 0, papers_updated := 0, papers_skipped := 0,
    authors_created := 0, themes_created := 0, errors := 0 }

/-- The 5-record batch of the claim: record #3 raises during mapping. -/
def c4batch : List ArxivPaper :=
  [c4paper '1' "Paper one".data, c4paper '2' "Paper two".data, c4paper3,
   c4paper '4' "Paper four".data, c4paper '5' "Paper five".data]

/-- C4: the orchestrator isolates per-record failures.  (i) The loop is a
fold: the records after a failing one are still processed, from exactly
the state the failing record left.  (ii) A record whose transform raises
only increments `errors` — the session and the other counters are
untouched.  (iii) On the concrete 5-record batch where record #3 raises
during mapping, `run` returns (it is a total function) with
`errors = 1`, the other 4 records fully processed (here: all skipped),
and nothing else counted. -/
theorem run_isolates_per_record_failures (θ : ℚ) (s : PipeState)
    (pre post : List ArxivPaper) (p : ArxivPaper) :
    (run_papers θ s (pre ++ p :: post) =
      run_papers θ (process_paper θ (run_papers θ s pre) p) post) ∧
    (∀ e, transform p = .error e →
      process_paper θ s p = { s with errors := s.errors + 1 }) ∧
    ((run (95/100) c4s0 c4batch).errors = 1 ∧
     (run (95/100) c4s0 c4batch).papers_skipped = 4 ∧
     (run (95/100) c4s0 c4batch).papers_collected = 5 ∧
     (run (95/100) c4s0 c4batch).papers_created = 0 ∧
     (run (95/100) c4s0 c4batch).papers_updated = 0 ∧
     (run (95/100) c4s0 c4batch).db = c4s0.db) := by
  refine ⟨?_, ?_, by decide, by decide, by decide, by decide, by decide, by decide⟩
  · simp [run_papers, List.foldl_append]
  · intro e he
    unfold process_paper
    rw [he]

/-- Witness for C4 at the concrete batch: record #3's transform raises the
`AttributeError`, the loop composes around it, and a failing record costs
exactly one error count. -/
theorem run_isolates_per_record_failures_witness :
    run_papers (95/100) c4s0 ([c4paper '1' "Paper one".data] ++ c4paper3 ::
        [c4paper '4' "Paper four".data]) =
      run_papers (95/100)
        (process_paper (95/100)
          (run_papers (95/100) c4s0 [c4paper '1' "Paper one".data]) c4paper3)
        [c4paper '4' "Paper four".data] ∧
    transform c4paper3 = .error (.attributeError "NoneType object has no attribute strip") ∧
    process_paper (95/100) c4s0 c4paper3 = { c4s0 with errors := c4s0.errors + 1 } := by
  refine ⟨(run_isolates_per_record_failures (95/100) c4s0 [c4paper '1' "Paper one".data]
      [c4paper '4' "Paper four".data] c4paper3).1, rfl, ?_⟩
  exact (run_isolates_per_record_failures (95/100) c4s0 [] [] c4paper3).2.1
    (.attributeError "NoneType object has no attribute strip") rfl

/-- Fixture for C5: a paper with one named author whose candidate matches
a stored record that lacks an abstract (so the load takes the update
path and then reaches the author handling). -/
def c5paper : ArxivPaper :=
  { id := some "2311.00007".data, title := .str "Neural paper".data,
    summary := .str "An abstract".data, authors := [{ name := some "John Smith".data }],
    categories := ["cs.LG".data], published := none, doi := none }

/-- Fixture: the stored record `c5paper` updates (missing abstract). -/
def c5existing : Publication :=
  { id := 3, titre := some "Neural paper".data, abstract := none,
    doi := some "10.48550/arXiv.2311.00007".data, arxiv_id := some "2311.00007".data,
    url := none, date_publication := none, type_publication := some "preprint".data,
    status := some "published".data, language := none, source_nom := none,
    evenement_id := none, nombre_citations := 0, nombre_auteurs := 0 }

/-- Fixture: the database holding only `c5existing` and the mapped theme. -/
def c5db : Db :=
  { publications := [c5existing], auteurs := [],
    themes := [{ id := 1, label := "Machine Learning".data, niveau_hierarchie := 0 }],
    publication_auteurs := [], publication_themes := [], next_id := 20 }

/-- Fixture: state holding only `c5existing`. -/
def c5s0 : PipeState :=
  { db := c5db,
    papers_collected := 0, papers_created := 0, papers_updated := 0, papers_skipped := 0,
    authors_created := 0, themes_created := 0, errors := 0 }

/-- C5 is a code bug: `_find_or_create_author` calls
`AuteurRepository.get_by_name`, a method that does not exist, so every
author whose parsed surname is truthy raises `AttributeError` instead of
being resolved; on an updated publication with one named author the load
step errors out and no author row or publication–author association is
created (the record is counted both as updated — incremented before the
author handling — and as an error). -/
theorem author_resolution_attribute_error (s : PipeState) :
    find_or_create_author s { nom := some "Smith".data, prenom := some "John".data } =
      (s, .error (.attributeError "AuteurRepository object has no attribute get_by_name")) ∧
    handle_authors s 1 [{ nom := some "Smith".data, prenom := some "John".data }] =
      (s, some (.attributeError "AuteurRepository object has no attribute get_by_name")) ∧
    (process_paper (95/100) c5s0 c5paper).errors = 1 ∧
    (process_paper (95/100) c5s0 c5paper).papers_updated = 1 ∧
    (process_paper (95/100) c5s0 c5paper).db.publication_auteurs = [] ∧
    (process_paper (95/100) c5s0 c5paper).db.auteurs = [] ∧
    (process_paper (95/100) c5s0 c5paper).authors_created = 0 := by
  refine ⟨rfl, rfl, by decide, by decide, by decide, by decide, by decide⟩

/-! ### Claim C6: collector retry policy
(`backend/app/pipelines/arxiv_collector.py`) -/

/-- The outcome of one HTTP round-trip of `ArxivCollector._make_request`:
a transient network failure (`aiohttp.ClientError`), a body whose XML
parsing fails, or a parsed page. -/
inductive ArxivResp
  | network
  | malformed
  | ok (papers : List ArxivPaper)
  deriving DecidableEq, Repr

/-- `ArxivCollector._make_request` on one response: a `ClientError` is
wrapped into `ArxivAPIError`, and `_parse_response` raises
`ArxivAPIError` on an XML parse failure. -/
def make_request : ArxivResp → Except PyErr (List ArxivPaper)
  | .network => .error (.arxivAPIError "API request failed")
  | .malformed => .error (.arxivAPIError "Failed to parse XML response")
  | .ok papers => .ok papers

/-- The retry predicate of the tenacity decorator on `search`:
`retry_if_exception_type((aiohttp.ClientError, ArxivAPIError))`.  Every
exception `_make_request` raises is an `ArxivAPIError`, so every failure
— the wrapped network error and the parse failure alike — is retried. -/
def arxiv_should_retry : PyErr → Bool
  | .arxivAPIError _ => true
  | _ => false

/-- `wait_exponential(multiplier=1, min=2, max=10)`: the delay slept after
the n-th failed attempt. -/
def arxiv_backoff (n : Nat) : ℚ :=
  max 2 (min 10 ((2 : ℚ) ^ n))

/-- The tenacity loop of the decorated `search` against a response
environment (request `i` receives `env i`): `fuel` is the number of
retries still allowed (`stop_after_attempt(3)` starts it at 2).  Returns
the surfaced result and the total number of requests made. -/
def search_attempts (env : Nat → ArxivResp) :
    Nat → Nat → Except PyErr (List ArxivPaper) × Nat
  | 0, i => (make_request (env i), i + 1)
  | fuel + 1, i =>
    match make_request (env i) with
    | .ok papers => (.ok papers, i + 1)
    | .error e =>
      if arxiv_should_retry e then search_attempts env fuel (i + 1)
      else (.error e, i + 1)

/-- The decorated `ArxivCollector.search` (query construction and the
rate limiter do not affect the retry behaviour): at most 3 attempts. -/
def search_requests (env : Nat → ArxivResp) : Except PyErr (List ArxivPaper) × Nat :=
  search_attempts env 2 0

/-- Counterexample to C6 as stated: a search whose response body fails XML
parsing does NOT surface its error without further attempts — the
`ArxivAPIError` raised by `_parse_response` is in the decorator's
retried-exception set, so the collector makes three requests before
surfacing it. -/
theorem search_retries_malformed_counterexample :
    search_requests (fun _ => .malformed) =
      (.error (.arxivAPIError "Failed to parse XML response"), 3) ∧
    (search_requests (fun _ => .malformed)).2 ≠ 1 := by
  exact ⟨rfl, by decide⟩

/-- The attempt counter of the retry loop is bounded by the fuel. -/
lemma search_attempts_count_le (env : Nat → ArxivResp) :
    ∀ fuel i, (search_attempts env fuel i).2 ≤ i + fuel + 1
  | 0, i => by
    unfold search_attempts
    omega
  | fuel + 1, i => by
    unfold search_attempts
    cases make_request (env i) with
    | ok papers => dsimp only; omega
    | error e =>
      dsimp only
      split
      · have := search_attempts_count_le env fuel (i + 1)
        omega
      · omega

/-- C6 (amended): the collector retries transient network errors AND
malformed-response parse failures alike, up to 3 attempts in total with
the exponential backoff schedule 2s then 4s; a first-attempt success
makes exactly one request; it never makes more than 3 requests. -/
theorem search_retry_policy_amended (env : Nat → ArxivResp) (papers : List ArxivPaper) :
    ((∀ i, env i = .malformed) →
      search_requests env = (.error (.arxivAPIError "Failed to parse XML response"), 3)) ∧
    (env 0 = .ok papers → search_requests env = (.ok papers, 1)) ∧
    (env 0 = .network → env 1 = .ok papers → search_requests env = (.ok papers, 2)) ∧
    (search_requests env).2 ≤ 3 ∧
    arxiv_backoff 1 = 2 ∧ arxiv_backoff 2 = 4 := by
  refine ⟨?_, ?_, ?_, search_attempts_count_le env 2 0, by norm_num [arxiv_backoff],
    by norm_num [arxiv_backoff]⟩
  · intro h
    show search_attempts env 2 0 = _
    unfold search_attempts
    rw [h 0]
    unfold search_attempts
    rw [h 1]
    unfold search_attempts
    rw [h 2]
    rfl
  · intro h
    show search_attempts env 2 0 = _
    unfold search_attempts
    rw [h]
    rfl
  · intro h0 h1
    show search_attempts env 2 0 = _
    unfold search_attempts
    rw [h0]
    unfold search_attempts
    rw [h1]
    rfl

/-- Witness for the amended C6: an always-malformed environment makes 3
requests; an immediately-useful environment makes 1; a transient network
failure followed by a good page makes 2. -/
theorem search_retry_policy_amended_witness :
    search_requests (fun _ => .malformed) =
      (.error (.arxivAPIError "Failed to parse XML response"), 3) ∧
    search_requests (fun _ => .ok []) = (.ok [], 1) ∧
    search_requests (fun i => if i = 0 then .network else .ok []) = (.ok [], 2) := by
  refine ⟨(search_retry_policy_amended (fun _ => .malformed) []).1 (fun _ => rfl), ?_, ?_⟩
  · exact (search_retry_policy_amended (fun _ => .ok []) []).2.1 rfl
  · exact (search_retry_policy_amended (fun i => if i = 0 then .network else .ok []) []).2.2.1
      rfl rfl

/-! ### Claim C7: the enrichment rate-limit cooldown
(`backend/app/enrichment/enrichment_service.py`,
`_fetch_semantic_scholar_data`) -/

/-- The extracted enrichment payload (the fields the service writes). -/
structure EnrichData where
  citation_count : Int
  venue : Option Str
  deriving DecidableEq, Repr

/-- The outcome of one Semantic Scholar request: data, a 404
(`PaperNotFoundError`, which the client maps to `None`), a 429
(`RateLimitError`, which propagates to the service), or another error
(which the service's generic handler turns into `None`). -/
inductive S2Resp
  | payload (d : EnrichData)
  | notFound
  | rateLimited
  | otherError
  deriving DecidableEq, Repr

/-- One invocation of the body of `_fetch_semantic_scholar_data` (without
the `RateLimitError` handler): try the arXiv id, fall back to the DOI. -/
inductive FetchStep
  | done (d : Option EnrichData)
  | rateLimited
  deriving DecidableEq, Repr

/-- The DOI fallback branch of `_fetch_semantic_scholar_data`. -/
def fetch_doi_branch (hasDoi : Bool) (env : Nat → S2Resp) (j : Nat) : FetchStep × Nat :=
  if hasDoi then
    match env j with
    | .payload d => (.done (some d), j + 1)
    | .notFound => (.done none, j + 1)
    | .rateLimited => (.rateLimited, j + 1)
    | .otherError => (.done none, j + 1)
  else (.done none, j)

/-- One pass of `_fetch_semantic_scholar_data` over the publication's
identifiers, request `i` receiving `env i`; returns the outcome and the
next request index. -/
def fetch_once (hasArxiv hasDoi : Bool) (env : Nat → S2Resp) (i : Nat) : FetchStep × Nat :=
  if hasArxiv then
    match env i with
    | .payload d => (.done (some d), i + 1)
    | .notFound => fetch_doi_branch hasDoi env (i + 1)
    | .rateLimited => (.rateLimited, i + 1)
    | .otherError => (.done none, i + 1)
  else fetch_doi_branch hasDoi env i

/-- `_fetch_semantic_scholar_data` with its `RateLimitError` handler,
step-indexed by the number of cooldown cycles still allowed: the handler
sleeps 60 s and then calls the whole function again
(`return await self._fetch_semantic_scholar_data(publication)`), with no
bound on the recursion.  `none` means the call has not terminated within
the given number of cooldown cycles. -/
def fetch_s2 (hasArxiv hasDoi : Bool) (env : Nat → S2Resp) :
    Nat → Nat → Option (Option EnrichData)
  | 0, _ => none
  | fuel + 1, i =>
    match fetch_once hasArxiv hasDoi env i with
    | (.done d, _) => some d
    | (.rateLimited, j) => fetch_s2 hasArxiv hasDoi env fuel j

/-- C7 is a code bug: against an API that answers 429 to every request,
`_fetch_semantic_scholar_data` performs a 60-second cooldown and a full
retry on every cycle, for ever — the fetch has not terminated within ANY
number of cooldown cycles, contradicting both the claim and the code's
own comment ("Wait and retry once"). -/
theorem fetch_semantic_scholar_unbounded_rate_limit_retry (hasDoi : Bool) :
    (∀ (k i : Nat), fetch_s2 true hasDoi (fun _ => .rateLimited) k i = none) ∧
    fetch_s2 true hasDoi (fun _ => .rateLimited) 2 0 = none := by
  have hall : ∀ (k i : Nat), fetch_s2 true hasDoi (fun _ => .rateLimited) k i = none := by
    intro k
    induction k with
    | zero => intro i; rfl
    | succ n ih =>
      intro i
      show fetch_s2 true hasDoi (fun _ => .rateLimited) n (i + 1) = none
      exact ih (i + 1)
  exact ⟨hall, hall 2 0⟩

/-! ### Claim C8: per-publication failure isolation in the batch
(`backend/app/enrichment/enrichment_service.py`) -/

/-- What happens inside `enrich_single_publication` for one publication:
the row is missing, the fetch yields no data, the enrichment succeeds,
or some step raises. -/
inductive PubBehavior
  | notFoundInDb
  | noData
  | succeeds (d : EnrichData)
  | fails
  deriving DecidableEq, Repr

/-- The session state seen by the enrichment service: committed
per-publication updates and the pending (uncommitted) ones. -/
structure EnrichDb where
  committed : List (Nat × EnrichData)
  pending : List (Nat × EnrichData)
  deriving DecidableEq, Repr

/-- `enrich_single_publication`: on success the update is written and
committed; on any exception the handler rolls back the pending writes
and returns `None`; a missing row or missing data returns `None` without
touching the session.  Every branch returns a value — the function never
lets an exception escape (`except Exception` around the whole body). -/
def enrich_single_publication (db : EnrichDb) (pubId : Nat) (beh : PubBehavior) :
    EnrichDb × Except Unit (Option EnrichData) :=
  match beh with
  | .notFoundInDb => (db, .ok none)
  | .noData => (db, .ok none)
  | .succeeds d =>
    ({ committed := db.committed ++ db.pending ++ [(pubId, d)], pending := [] }, .ok (some d))
  | .fails => ({ db with pending := [] }, .ok none)

/-- The per-publication loop of `_enrich_batch` (the semaphore bounds
concurrency but `asyncio.gather` returns the results in order; the
embedding runs the publications sequentially). -/
def enrich_batch_go (db : EnrichDb) :
    List (Nat × PubBehavior) → EnrichDb × List (Except Unit (Option EnrichData))
  | [] => (db, [])
  | pb :: rest =>
    let r := enrich_single_publication db pb.1 pb.2
    let next := enrich_batch_go r.1 rest
    (next.1, r.2 :: next.2)

/-- The batch statistics of `_enrich_batch`. -/
structure BatchStats where
  enriched : Nat
  failed : Nat
  skipped : Nat
  citations_updated : Int
  deriving DecidableEq, Repr

/-- The counting of `_enrich_batch`: `enriched` counts truthy non-exception
results, `failed` counts results that are exceptions, `skipped` counts
`None` results, `citations_updated` sums the citation counts. -/
def batch_stats (results : List (Except Unit (Option EnrichData))) : BatchStats :=
  { enriched := (results.filter (fun r => match r with | .ok (some _) => true | _ => false)).length,
    failed := (results.filter (fun r => match r with | .error _ => true | _ => false)).length,
    skipped := (results.filter (fun r => match r with | .ok none => true | _ => false)).length,
    citations_updated := (results.filterMap
      (fun r => match r with | .ok (some d) => some d.citation_count | _ => none)).sum }

/-- `_enrich_batch`. -/
def enrich_batch (db : EnrichDb) (pubs : List (Nat × PubBehavior)) : EnrichDb × BatchStats :=
  let r := enrich_batch_go db pubs
  (r.1, batch_stats r.2)

/-- The result `enrich_single_publication` hands to `gather` for one
publication — always an `.ok` value, never an exception. -/
def resultOf : Nat × PubBehavior → Except Unit (Option EnrichData)
  | (_, .succeeds d) => .ok (some d)
  | _ => .ok none

/-- Behaviour test: did this publication's enrichment succeed? -/
def isSucc : Nat × PubBehavior → Bool
  | (_, .succeeds _) => true
  | _ => false

/-- Characterization of the batch loop from a session with nothing
pending: every publication is processed (the results list matches the
input pointwise), the committed updates are the base plus the successful
publications' updates in order — a failed publication's rollback
discards only its own pending writes — and nothing is left pending. -/
lemma enrich_batch_go_spec (pubs : List (Nat × PubBehavior)) :
    ∀ db : EnrichDb, db.pending = [] →
      enrich_batch_go db pubs =
        ({ committed := db.committed ++ pubs.filterMap
            (fun pb => match pb.2 with | .succeeds d => some (pb.1, d) | _ => none),
           pending := [] },
         pubs.map resultOf) := by
  induction pubs with
  | nil =>
    intro db h
    cases db
    simp_all [enrich_batch_go]
  | cons pb rest ih =>
    intro db h
    obtain ⟨pid, beh⟩ := pb
    cases beh with
    | notFoundInDb =>
      simp [enrich_batch_go, enrich_single_publication, resultOf, ih db h]
    | noData =>
      simp [enrich_batch_go, enrich_single_publication, resultOf, ih db h]
    | succeeds d =>
      have ih2 := ih ⟨db.committed ++ [(pid, d)], []⟩ rfl
      simp [enrich_batch_go, enrich_single_publication, resultOf, h, ih2,
        List.append_assoc]
    | fails =>
      have ih2 := ih ⟨db.committed, []⟩ rfl
      simp [enrich_batch_go, enrich_single_publication, resultOf, ih2]

/-- Statistics of a results list in which no element is an exception:
`failed` is 0 and the successes land in `enriched`, everything else in
`skipped`. -/
lemma batch_stats_mapped (pubs : List (Nat × PubBehavior)) :
    (batch_stats (pubs.map resultOf)).failed = 0 ∧
    (batch_stats (pubs.map resultOf)).enriched = pubs.countP isSucc ∧
    (batch_stats (pubs.map resultOf)).skipped = pubs.countP (fun pb => !isSucc pb) := by
  induction pubs with
  | nil => simp [batch_stats]
  | cons pb rest ih =>
    obtain ⟨ih1, ih2, ih3⟩ := ih
    simp only [batch_stats] at ih1 ih2 ih3
    obtain ⟨pid, beh⟩ := pb
    refine ⟨?_, ?_, ?_⟩ <;>
      cases beh <;>
        simp [batch_stats, resultOf, isSucc, List.countP_cons, List.filter_cons,
          ih1, ih2, ih3]

/-- Counterexample to C8 as stated: in a two-publication batch whose
second publication fails during enrichment, the returned failure count
is 0 — the caught failure returns `None` and is counted as skipped, so
the `failed` statistic does not reflect the failed publication. -/
theorem enrich_batch_failed_count_counterexample :
    (enrich_batch ⟨[], []⟩
      [(1, .succeeds ⟨42, none⟩), (2, .fails)]).2.failed = 0 ∧
    (enrich_batch ⟨[], []⟩
      [(1, .succeeds ⟨42, none⟩), (2, .fails)]).2.skipped = 1 ∧
    (enrich_batch ⟨[], []⟩
      [(1, .succeeds ⟨42, none⟩), (2, .fails)]).2.enriched = 1 := by
  refine ⟨by decide, by decide, by decide⟩

/-- C8 (amended): a failure while enriching one publication is caught and
does not abort the batch — every publication of the batch is processed
and the rollback is scoped to the failing publication (committed updates
of the others are kept, nothing stays pending) — but failed publications
are counted in `skipped_publications`; the `failed` count of the
returned statistics is always 0, because `enrich_single_publication`
catches every exception and returns `None`. -/
theorem enrich_batch_failures_amended (db : EnrichDb) (pubs : List (Nat × PubBehavior))
    (hp : db.pending = []) :
    ((enrich_batch_go db pubs).2).length = pubs.length ∧
    (enrich_batch db pubs).2.failed = 0 ∧
    (enrich_batch db pubs).2.enriched = pubs.countP isSucc ∧
    (enrich_batch db pubs).2.skipped = pubs.countP (fun pb => !isSucc pb) ∧
    (enrich_batch db pubs).1.committed = db.committed ++
      pubs.filterMap (fun pb => match pb.2 with | .succeeds d => some (pb.1, d) | _ => none) ∧
    (enrich_batch db pubs).1.pending = [] := by
  have hgo := enrich_batch_go_spec pubs db hp
  obtain ⟨h1, h2, h3⟩ := batch_stats_mapped pubs
  refine ⟨?_, ?_, ?_, ?_, ?_, ?_⟩
  · rw [hgo]; simp
  · show (batch_stats (enrich_batch_go db pubs).2).failed = 0
    rw [hgo]; exact h1
  · show (batch_stats (enrich_batch_go db pubs).2).enriched = _
    rw [hgo]; exact h2
  · show (batch_stats (enrich_batch_go db pubs).2).skipped = _
    rw [hgo]; exact h3
  · show (enrich_batch_go db pubs).1.committed = _
    rw [hgo]
  · show (enrich_batch_go db pubs).1.pending = []
    rw [hgo]

/-- Witness for the amended C8 at the concrete two-publication batch with
one success and one failure. -/
theorem enrich_batch_failures_amended_witness :
    (⟨[], []⟩ : EnrichDb).pending = [] ∧
    (enrich_batch ⟨[], []⟩ [(1, .succeeds ⟨42, none⟩), (2, .fails)]).2.failed = 0 ∧
    ((enrich_batch_go ⟨[], []⟩ [(1, .succeeds ⟨42, none⟩), (2, .fails)]).2).length = 2 ∧
    (enrich_batch ⟨[], []⟩ [(1, .succeeds ⟨42, none⟩), (2, .fails)]).1.committed =
      [(1, ⟨42, none⟩)] ∧
    (enrich_batch ⟨[], []⟩ [(1, .succeeds ⟨42, none⟩), (2, .fails)]).1.pending = [] := by
  refine ⟨rfl,
    (enrich_batch_failures_amended ⟨[], []⟩
      [(1, .succeeds ⟨42, none⟩), (2, .fails)] rfl).2.1,
    (enrich_batch_failures_amended ⟨[], []⟩
      [(1, .succeeds ⟨42, none⟩), (2, .fails)] rfl).1,
    by decide,
    (enrich_batch_failures_amended ⟨[], []⟩
      [(1, .succeeds ⟨42, none⟩), (2, .fails)] rfl).2.2.2.2.2⟩
